import Mathlib

/-!
Shallow embedding of the Sales-MCP purchase persistence layer:
`PurchaseService` (src/mcp/src/services/purchase_service.py), the
session context manager (src/mcp/src/database/connection.py), and the
MCP tool `register_product_sale` / `get_store_purchases`
(src/mcp/src/core/tools/db_tools.py).

Python values that can appear in a purchase payload, inside the
`products` argument and in JSON columns are modelled by the inductive
type `Json`.  Python numbers (int/float) are modelled by `ℚ`: the
claims under study concern the presence or absence of checks and the
exact flow of the values, not IEEE-754 rounding.  Error messages that
the code builds by string interpolation are modelled by one
constructor per `return`/`raise` site, carrying the interpolated data
as fields, so each constructor corresponds to exactly one message
site of the source.
-/

/-- A Python/JSON value as it occurs in payloads, `products` items and
JSON columns.  `num` carries a rational abstracting Python int/float. -/
inductive Json where
  | null : Json
  | bool (b : Bool) : Json
  | num (q : ℚ) : Json
  | str (s : String) : Json
  | arr (xs : List Json) : Json
  | obj (kvs : List (String × Json)) : Json

namespace Json

/-- Python truthiness of a value (`if x:`): `None`, `False`, `0`,
empty string, empty list and empty dict are falsy. -/
def truthy : Json → Bool
  | .null => false
  | .bool b => b
  | .num q => decide (q ≠ 0)
  | .str s => decide (s ≠ "")
  | .arr xs => !xs.isEmpty
  | .obj kvs => !kvs.isEmpty

/-- `dict.get(k, d)` on an `obj`; on anything else returns the default
(only ever applied to objects in the embedded code paths). -/
def getD (j : Json) (k : String) (d : Json) : Json :=
  match j with
  | .obj kvs => (kvs.lookup k).getD d
  | _ => d

/-- `item and isinstance(item, dict)`: a truthy dict.  An empty dict is
falsy in Python, so it does not qualify. -/
def truthyDict : Json → Bool
  | .obj kvs => !kvs.isEmpty
  | _ => false

end Json

/-- Python `str.strip()`: drop whitespace from both ends.  (Python
strips a slightly larger Unicode whitespace class than
`Char.isWhitespace`; the difference is immaterial to every claim.) -/
def pyStrip (s : String) : String :=
  ⟨((s.data.dropWhile Char.isWhitespace).reverse.dropWhile
      Char.isWhitespace).reverse⟩

/-- Python `str.lower()` (ASCII case mapping). -/
def pyLower (s : String) : String :=
  ⟨s.data.map Char.toLower⟩

/-- Python `str(x)`.  For strings it is the identity; for the other
shapes we return the canonical Python renderings.  The rendering of
numbers abstracts CPython float/int repr (the embedded code only ever
uses these strings whole: for emptiness tests, equality and storage). -/
def pyStr : Json → String
  | .null => "None"
  | .bool true => "True"
  | .bool false => "False"
  | .num q => if q.den = 1 then toString q.num else toString q
  | .str s => s
  | .arr _ => "[...]"
  | .obj _ => "{...}"

/-- Truncation of a rational toward zero, the semantics of Python
`int(float)`: `Int.div` rounds toward zero, and a `Rat` is stored in
lowest terms, so this is the integer part of `q`. -/
def ratTruncate (q : ℚ) : Int :=
  q.num.tdiv (q.den : Int)

/-- Python `int(x)` on a payload value.  Numbers truncate toward zero,
booleans map to 0/1, strings are parsed as integers, and `None`, lists
and dicts raise a `TypeError` (modelled as `Except.error` carrying the
exception rendering). -/
def pyInt : Json → Except String Int
  | .num q => .ok (ratTruncate q)
  | .bool b => .ok (if b then 1 else 0)
  | .str s =>
    match (pyStrip s).toInt? with
    | some n => .ok n
    | none => .error "ValueError: invalid literal for int"
  | .null => .error "TypeError: int of NoneType"
  | .arr _ => .error "TypeError: int of list"
  | .obj _ => .error "TypeError: int of dict"

/-- Parse an optionally signed decimal numeral (digits, optional dot,
digits) to a rational: the common inputs of Python `float(str)`.
Scientific notation and the inf/nan spellings are not modelled; no
claim exercises them. -/
def parseDecimal (s : String) : Option ℚ :=
  let t := pyStrip s
  let (sign, u) :=
    if t.startsWith "-" then ((-1 : ℚ), t.drop 1)
    else if t.startsWith "+" then ((1 : ℚ), t.drop 1) else ((1 : ℚ), t)
  match u.splitOn "." with
  | [a] =>
    if a ≠ "" && a.all Char.isDigit then some (sign * (a.toNat! : ℚ)) else none
  | [a, b] =>
    if (a ≠ "" || b ≠ "") && a.all Char.isDigit && b.all Char.isDigit then
      some (sign * ((a.toNat! : ℚ) + (b.toNat! : ℚ) / ((10 : ℚ) ^ b.length)))
    else none
  | _ => none

/-- Python `float(x)` on a payload value: numbers pass through,
booleans map to 0/1, decimal strings are parsed, everything else
raises `TypeError`/`ValueError` (modelled as `Except.error`). -/
def pyFloat : Json → Except String ℚ
  | .num q => .ok q
  | .bool b => .ok (if b then 1 else 0)
  | .str s =>
    match parseDecimal s with
    | some q => .ok q
    | none => .error "ValueError: could not convert string to float"
  | .null => .error "TypeError: float of NoneType"
  | .arr _ => .error "TypeError: float of list"
  | .obj _ => .error "TypeError: float of dict"

/-- `PurchaseServiceError(message, status_code)` from
purchase_service.py. -/
structure PurchaseServiceError where
  message : String
  status_code : ℕ
deriving DecidableEq, Repr

/-- An exception escaping a service call: either the typed
`PurchaseServiceError`, or any other Python exception (storage-layer
errors, coercion `TypeError`s, ...) carrying its `str(e)` rendering. -/
inductive Exn where
  | service (e : PurchaseServiceError) : Exn
  | raised (msg : String) : Exn
deriving DecidableEq, Repr

/-- `PurchaseService.STORE_TABLE_MAP`, the shipped static
store-id → table map. -/
def STORE_TABLE_MAP : List (String × String) :=
  [("4f22df54942898f1", "ventas_mauricio")]

/-- Python `a or b` for two `dict.get` results on string values:
`None` and the empty string are falsy. -/
def pyOrStr (a b : Option String) : Option String :=
  match a with
  | some s => if s = "" then b else some s
  | none => b

/-- `PurchaseService.resolve_table_name`, parametrized by the
store-table map (the source reads the class attribute
`STORE_TABLE_MAP`).  Normalizes the key by trimming and lower-casing,
looks it up, falls back to the `"default"` entry, and raises a
400-status `PurchaseServiceError` when the result is missing or falsy. -/
def resolve_table_name (map : List (String × String)) (store_id : String) :
    Except PurchaseServiceError String :=
  let key := pyLower (pyStrip store_id)
  let table_name := pyOrStr (map.lookup key) (map.lookup "default")
  match table_name with
  | some t =>
    if t = "" then
      .error ⟨"No hay tabla configurada para el store_id dado", 400⟩
    else .ok t
  | none => .error ⟨"No hay tabla configurada para el store_id dado", 400⟩

/-!
## Database and session model

The storage engine is an external collaborator.  It is modelled as a
map from table name to the list of rows in insertion order; ids are
assigned by storage, strictly increasing per table, so insertion order
is ascending-id order and `ORDER BY id DESC` is the reverse of the
stored list.  Tables named by the resolver are assumed to exist (the
source states "se asume que la tabla existe con las columnas
esperadas").  The collaborator can misbehave in two ways that the code
under study must handle: the INSERT can raise a storage-layer
exception, and the read-back SELECT can return no row (external
interference such as a concurrent delete, or a resolver/table
mismatch); both are injected through `Storage`.
-/

/-- One persisted row of a ventas table (schema in the module doc of
purchase_service.py).  Timestamps are abstract instants (`NOW()` is
modelled by `Storage.now`). -/
structure Row where
  id : ℕ
  client_phone : String
  created_at : ℕ
  updated_at : ℕ
  total_amount : ℚ
  products : Json
  client_json : Json

/-- The database: table name → rows in insertion (ascending-id) order. -/
def DB := List (String × List Row)

/-- Rows of a table (empty when the table holds no rows yet). -/
def DB.rowsOf (db : DB) (t : String) : List Row :=
  (List.lookup t db).getD []

/-- The id storage assigns to the next row of table `t`: one past the
maximum id present. -/
def DB.nextId (db : DB) (t : String) : ℕ :=
  ((db.rowsOf t).map Row.id).foldr max 0 + 1

/-- Append a row to table `t`. -/
def DB.insertRow (db : DB) (t : String) (r : Row) : DB :=
  match db with
  | [] => [(t, [r])]
  | (u, rows) :: rest =>
    if u = t then (u, rows ++ [r]) :: rest
    else (u, rows) :: DB.insertRow rest t r

/-- `SELECT ... ORDER BY id DESC LIMIT 1` on table `t`: the last
inserted row, when any. -/
def DB.lastRow (db : DB) (t : String) : Option Row :=
  (db.rowsOf t).getLast?

/-- Behavior of the storage collaborator during one call:
`insertExn` injects a storage-layer exception at the INSERT,
`readbackEmpty` makes the read-back SELECT return no row, and `now`
is the instant `NOW()` evaluates to. -/
structure Storage where
  insertExn : Option String := none
  readbackEmpty : Bool := false
  now : ℕ := 0

/-- What a call did to the session, observable from outside:
whether a session was opened (`database_service.get_session_context`),
whether `session.rollback()` ran, and the committed database state
after the session closed. -/
structure SaveTrace where
  sessionOpened : Bool
  rolledBack : Bool
  db : DB

/-- The row dict returned by `save_purchase` / `get_purchases`:
`dict(row._mapping)` plus the `"table"` annotation.  (Datetime→ISO
normalization acts on the abstract instants as the identity here;
no claim inspects the textual timestamp format.) -/
structure PersistedPurchase where
  id : ℕ
  client_phone : String
  created_at : ℕ
  updated_at : ℕ
  total_amount : ℚ
  products : Json
  client_json : Json
  table : String

/-- Wrap a stored row as the returned purchase dict. -/
def Row.toPersisted (r : Row) (table : String) : PersistedPurchase :=
  ⟨r.id, r.client_phone, r.created_at, r.updated_at, r.total_amount,
    r.products, r.client_json, table⟩

/-- A purchase payload: a Python dict, keys unique. -/
def Payload := List (String × Json)

/-- `k in purchase`. -/
def Payload.hasKey (p : Payload) (k : String) : Bool :=
  (List.lookup k p).isSome

/-- `purchase[k]` (total: the embedded code only indexes keys whose
presence was established by the required-fields check). -/
def Payload.get (p : Payload) (k : String) : Json :=
  (List.lookup k p).getD .null

/-- The `required` list of `save_purchase`. -/
def requiredFields : List String :=
  ["total_amount", "client_phone", "client_full_name", "client_document",
   "client_address", "client_city", "client_email", "products"]

/-- The `client_json` dict built inside `save_purchase`. -/
def buildClientJson (purchase : Payload) : Json :=
  .obj
    [("direccion", .str (pyStrip (pyStr (purchase.get "client_address")))),
     ("ciudad", .str (pyStrip (pyStr (purchase.get "client_city")))),
     ("cedula", .str (pyStrip (pyStr (purchase.get "client_document")))),
     ("nombre_completo", .str (pyStrip (pyStr (purchase.get "client_full_name")))),
     ("celular", .str (pyStrip (pyStr (purchase.get "client_phone")))),
     ("correo",
       if (purchase.get "client_email").truthy then
         .str (pyLower (pyStrip (pyStr (purchase.get "client_email"))))
       else .null)]

/-- `PurchaseService.save_purchase`.  Mirrors the source step by step:
resolve the table, check the required keys (status 422), open a
session, build `client_json`, coerce `total_amount` with `float(...)`,
run the INSERT, commit, read back the newest row, and raise a
500-status error when the read-back finds nothing.  Exceptions inside
the `with` block make `get_session_context` roll the session back and
re-raise them unchanged. -/
def save_purchase (map : List (String × String)) (store_id : String)
    (purchase : Payload) (db : DB) (st : Storage) :
    Except Exn PersistedPurchase × SaveTrace :=
  match resolve_table_name map store_id with
  | .error e => (.error (.service e), ⟨false, false, db⟩)
  | .ok table =>
    let missing := requiredFields.filter (fun k => !purchase.hasKey k)
    if missing.isEmpty then
      -- with database_service.get_session_context() as session:
      let client_json := buildClientJson purchase
      match pyFloat (purchase.get "total_amount") with
      | .error m => (.error (.raised m), ⟨true, true, db⟩)
      | .ok amount =>
        match st.insertExn with
        | some m => (.error (.raised m), ⟨true, true, db⟩)
        | none =>
          let row : Row :=
            { id := db.nextId table
              client_phone := pyStrip (pyStr (purchase.get "client_phone"))
              created_at := st.now
              updated_at := st.now
              total_amount := amount
              products := purchase.get "products"
              client_json := client_json }
          let db1 := db.insertRow table row
          -- session.commit(); then the read-back SELECT
          match (if st.readbackEmpty then none else db1.lastRow table) with
          | none =>
            (.error (.service
                ⟨"No fue posible leer la compra recién guardada", 500⟩),
              ⟨true, true, db1⟩)
          | some r => (.ok (r.toPersisted table), ⟨true, false, db1⟩)
    else
      (.error (.service
          ⟨"Faltan campos requeridos: " ++ String.intercalate ", " missing,
            422⟩),
        ⟨false, false, db⟩)

/-- `PurchaseService.get_purchases`: resolve the table, clamp `limit`
to [1, 200] and `offset` to [0, ∞), then SELECT ordered by id
descending with LIMIT/OFFSET.  The boolean records whether a session
was opened. -/
def get_purchases (map : List (String × String)) (store_id : String)
    (limit : Int) (offset : Int) (db : DB) :
    Except Exn (List PersistedPurchase) × Bool :=
  match resolve_table_name map store_id with
  | .error e => (.error (.service e), false)
  | .ok table =>
    let limit := max 1 (min limit 200)
    let offset := max 0 offset
    let rows :=
      (((db.rowsOf table).reverse.drop offset.toNat).take limit.toNat)
    (.ok (rows.map (fun r => r.toPersisted table)), true)

/-!
## MCP tool layer (db_tools.py)

`register_product_sale` answers with a dict `{"success": bool, ...}`.
Each distinct `return {"success": False, ...}` site of the source is
one constructor of `ToolError`, carrying the data the source
interpolates into the message.
-/

/-- The `products` argument of the tool: a Python list, a string, or a
value of any other type. -/
inductive ProductsArg where
  | pyList (xs : List Json) : ProductsArg
  | pyStr (s : String) : ProductsArg
  | other : ProductsArg

/-- A validated line item as appended to `requested_items`. -/
structure ReqItem where
  product_id : String
  quantity : Int
  unit_price : ℚ
deriving DecidableEq, Repr

/-- A validated item back in payload form (the dict appended to
`requested_items`). -/
def ReqItem.toJson (it : ReqItem) : Json :=
  .obj [("product_id", .str it.product_id), ("quantity", .num it.quantity),
        ("unit_price", .num it.unit_price)]

/-- One constructor per `return {"success": False, ...}` site of
`register_product_sale`, in source order:
`productsInvalidJson` = "El campo 'products' debe ser un JSON válido";
`productsNotListOrString` = "... debe ser una lista o JSON string";
`productsEmptyOrNotAList` = "Debe proporcionar una lista 'products' con
al menos un item"; the five client-field messages; `itemInvalid i pid
qty price` = "Cada item debe incluir product_id (hash), quantity>0 y
unit_price>=0. Item i: ..."; `serviceError` = the caught
`PurchaseServiceError` (message and status_code); `exception` = the
generic `except Exception` handler returning `str(e)`. -/
inductive ToolError where
  | productsInvalidJson : ToolError
  | productsNotListOrString : ToolError
  | productsEmptyOrNotAList : ToolError
  | phoneInvalid : ToolError
  | addressInvalid : ToolError
  | fullNameInvalid : ToolError
  | documentInvalid : ToolError
  | cityInvalid : ToolError
  | itemInvalid (i : ℕ) (pid : String) (qty : Int) (price : Option ℚ) : ToolError
  | serviceError (message : String) (status_code : ℕ) : ToolError
  | exception (msg : String) : ToolError
deriving DecidableEq, Repr

/-- The tool's answer dict: `{"success": True, "sale": ...}` or
`{"success": False, "error": ...}`. -/
inductive ToolResult where
  | ok (sale : PersistedPurchase) : ToolResult
  | err (e : ToolError) : ToolResult

/-- `result["success"]`. -/
def ToolResult.success : ToolResult → Bool
  | .ok _ => true
  | .err _ => false

/-- Outcome of the per-item loop: the validated items and the running
`total_amount`, a first-bad-item rejection, or a Python exception
raised by `int(...)` (propagates to the generic handler). -/
inductive ItemsOutcome where
  | ok (its : List ReqItem) (total : ℚ) : ItemsOutcome
  | bad (i : ℕ) (pid : String) (qty : Int) (price : Option ℚ) : ItemsOutcome
  | raised (msg : String) : ItemsOutcome
deriving DecidableEq, Repr

/-- `pid = str(item.get("product_id", "")).strip() if item and
isinstance(item, dict) else ""`. -/
def itemPid (item : Json) : String :=
  if item.truthyDict then pyStrip (pyStr (item.getD "product_id" (.str "")))
  else ""

/-- `qty = int(item.get("quantity", 0)) if item and isinstance(item,
dict) else 0` — the `int(...)` call can raise. -/
def itemQty (item : Json) : Except String Int :=
  if item.truthyDict then pyInt (item.getD "quantity" (.num 0)) else .ok 0

/-- `unit_price = float(item.get("unit_price", None)) ...` with
`TypeError`/`ValueError` caught and mapped to `None`. -/
def itemPrice (item : Json) : Option ℚ :=
  if item.truthyDict then (pyFloat (item.getD "unit_price" .null)).toOption
  else none

/-- The `for i, item in enumerate(products_list)` validation loop of
`register_product_sale`, starting at index `i`. -/
def validateItems (items : List Json) (i : ℕ) : ItemsOutcome :=
  match items with
  | [] => .ok [] 0
  | item :: rest =>
    let pid := itemPid item
    match itemQty item with
    | .error m => .raised m
    | .ok qty =>
      let price := itemPrice item
      if pid = "" ∨ qty ≤ 0 ∨ price.isNone ∨ price.getD 0 < 0 then
        .bad i pid qty price
      else
        match validateItems rest (i + 1) with
        | .ok its total =>
          .ok (⟨pid, qty, price.getD 0⟩ :: its) (price.getD 0 * qty + total)
        | out => out

/-- The purchase dict `register_product_sale` passes to
`purchase_service.save_purchase`. -/
def buildPurchase (client_phone client_full_name client_document
    client_address client_city : String) (client_email : Option String)
    (its : List ReqItem) (total : ℚ) : Payload :=
  [("total_amount", .num total),
   ("client_phone", .str (pyStrip client_phone)),
   ("client_full_name", .str (pyStrip client_full_name)),
   ("client_document", .str (pyStrip client_document)),
   ("client_address", .str (pyStrip client_address)),
   ("client_city", .str (pyStrip client_city)),
   ("client_email",
     match client_email with
     | some e => if e = "" then .null else .str (pyLower (pyStrip e))
     | none => .null),
   ("products", .arr (its.map ReqItem.toJson))]

/-- The `try/except` tail of `register_product_sale` around the call
into `purchase_service.save_purchase`: a `PurchaseServiceError` is
caught and answered as `{"success": False, "error": e.message,
"status_code": e.status_code}`; any other exception is caught by the
generic handler and answered as `{"success": False, "error": str(e)}`
with no status code. -/
def toolWrapSave (res : Except Exn PersistedPurchase × SaveTrace) :
    ToolResult × SaveTrace :=
  match res with
  | (.ok saved, tr) => (.ok saved, tr)
  | (.error (.service e), tr) =>
    (.err (.serviceError e.message e.status_code), tr)
  | (.error (.raised m), tr) => (.err (.exception m), tr)

/-- The tail of `register_product_sale` after the `products` argument
has been normalized to `products_list`: emptiness check, client-field
checks, the item loop, and the call into the singleton
`purchase_service` (whose map is the shipped `STORE_TABLE_MAP`),
with `PurchaseServiceError` and generic exceptions caught and turned
into the error dict. -/
def rps_withList (store_id client_phone client_full_name client_document
    client_address client_city : String) (client_email : Option String)
    (products_list : Json) (db : DB) (st : Storage) :
    ToolResult × SaveTrace :=
  match products_list with
  | .arr items =>
    if items.isEmpty then (.err .productsEmptyOrNotAList, ⟨false, false, db⟩)
    else if client_phone = "" ∨ (pyStrip client_phone).length < 10 then
      (.err .phoneInvalid, ⟨false, false, db⟩)
    else if client_address = "" ∨ (pyStrip client_address).length < 5 then
      (.err .addressInvalid, ⟨false, false, db⟩)
    else if client_full_name = "" ∨ (pyStrip client_full_name).length < 3 then
      (.err .fullNameInvalid, ⟨false, false, db⟩)
    else if client_document = "" ∨ (pyStrip client_document).length < 5 then
      (.err .documentInvalid, ⟨false, false, db⟩)
    else if client_city = "" ∨ (pyStrip client_city).length < 2 then
      (.err .cityInvalid, ⟨false, false, db⟩)
    else
      match validateItems items 0 with
      | .raised m => (.err (.exception m), ⟨false, false, db⟩)
      | .bad i pid qty price =>
        (.err (.itemInvalid i pid qty price), ⟨false, false, db⟩)
      | .ok its total =>
        toolWrapSave (save_purchase STORE_TABLE_MAP store_id
          (buildPurchase client_phone client_full_name client_document
            client_address client_city client_email its total) db st)
  | _ => (.err .productsEmptyOrNotAList, ⟨false, false, db⟩)

/-- The MCP tool `register_product_sale`.  `loads` is Python
`json.loads` restricted to its success/failure observable (the json
module is an external collaborator; theorems that need its round-trip
property take it as a hypothesis). -/
def register_product_sale (loads : String → Option Json)
    (store_id client_phone client_full_name client_document
      client_address client_city : String) (client_email : Option String)
    (products : ProductsArg) (db : DB) (st : Storage) :
    ToolResult × SaveTrace :=
  match products with
  | .pyStr s =>
    match loads s with
    | none => (.err .productsInvalidJson, ⟨false, false, db⟩)
    | some j =>
      rps_withList store_id client_phone client_full_name client_document
        client_address client_city client_email j db st
  | .pyList xs =>
    rps_withList store_id client_phone client_full_name client_document
      client_address client_city client_email (.arr xs) db st
  | .other => (.err .productsNotListOrString, ⟨false, false, db⟩)

/-- Answer of `get_store_purchases`: the purchases list on success,
otherwise the error message with the optional status code
(`PurchaseServiceError` carries one, a generic exception does not). -/
inductive GetResult where
  | ok (purchases : List PersistedPurchase) : GetResult
  | err (message : String) (status_code : Option ℕ) : GetResult

/-- The MCP tool `get_store_purchases`, defaults `limit = 50`,
`offset = 0`. -/
def get_store_purchases (store_id : String) (db : DB)
    (limit : Int := 50) (offset : Int := 0) : GetResult :=
  match get_purchases STORE_TABLE_MAP store_id limit offset db with
  | (.ok purchases, _) => .ok purchases
  | (.error (.service e), _) => .err e.message (some e.status_code)
  | (.error (.raised m), _) => .err m none

/-- The quantity the loop computed for an item whose `int(...)`
coercion succeeded (0 when it raised; only used under a
no-raise hypothesis). -/
def itemQtyD (item : Json) : Int :=
  match itemQty item with
  | .ok q => q
  | .error _ => 0

/-- The per-item pass predicate of the validation loop: non-empty
(coerced, stripped) `product_id`, successfully coerced `quantity > 0`,
and present, successfully coerced `unit_price >= 0`. -/
def itemOk (item : Json) : Bool :=
  decide (itemPid item ≠ "") &&
    (match itemQty item with
     | .ok q => decide (0 < q)
     | .error _ => false) &&
    (match itemPrice item with
     | some p => decide (0 ≤ p)
     | none => false)

/-- The `requested_items` entry the loop appends for a passing item. -/
def mkReqItem (item : Json) : ReqItem :=
  ⟨itemPid item, itemQtyD item, (itemPrice item).getD 0⟩

/-!
## Shared lemmas about the storage model
-/

/-- Inserting into table `t` appends the row to `t`'s rows. -/
theorem DB.rowsOf_insertRow (db : DB) (t : String) (r : Row) :
    (db.insertRow t r).rowsOf t = db.rowsOf t ++ [r] := by
  induction db with
  | nil => simp [DB.insertRow, DB.rowsOf, List.lookup]
  | cons hd rest ih =>
    obtain ⟨u, rows⟩ := hd
    by_cases h : u = t
    · subst h
      simp [DB.insertRow, DB.rowsOf, List.lookup]
    · have ht : (t == u) = false := by
        simp [Ne.symm h]
      simp only [DB.insertRow, if_neg h]
      simp only [DB.rowsOf, List.lookup, ht]
      simpa [DB.rowsOf] using ih

/-- After an insert into `t`, the read-back SELECT on `t` finds the
inserted row. -/
theorem DB.lastRow_insertRow (db : DB) (t : String) (r : Row) :
    (db.insertRow t r).lastRow t = some r := by
  simp [DB.lastRow, DB.rowsOf_insertRow]

/-- The required-fields filter is empty exactly when every required
key is present. -/
theorem requiredFilter_eq_nil (purchase : Payload) :
    (requiredFields.filter (fun k => !purchase.hasKey k)) = [] ↔
      ∀ k ∈ requiredFields, purchase.hasKey k = true := by
  rw [List.filter_eq_nil_iff]
  simp

/-- `save_purchase` on a fully valid call: all required keys present,
`total_amount` coerces, storage behaves.  It commits exactly the row
built from the payload and returns that row read back. -/
theorem save_purchase_ok (map : List (String × String)) (store_id : String)
    (purchase : Payload) (db : DB) (st : Storage) (t : String) (q : ℚ)
    (hres : resolve_table_name map store_id = .ok t)
    (hkeys : ∀ k ∈ requiredFields, purchase.hasKey k = true)
    (hq : pyFloat (purchase.get "total_amount") = .ok q)
    (hins : st.insertExn = none) (hrb : st.readbackEmpty = false) :
    save_purchase map store_id purchase db st =
      (.ok ((⟨db.nextId t, pyStrip (pyStr (purchase.get "client_phone")),
          st.now, st.now, q, purchase.get "products",
          buildClientJson purchase⟩ : Row).toPersisted t),
        ⟨true, false,
          db.insertRow t
            ⟨db.nextId t, pyStrip (pyStr (purchase.get "client_phone")),
              st.now, st.now, q, purchase.get "products",
              buildClientJson purchase⟩⟩) := by
  have hfilter : (requiredFields.filter (fun k => !purchase.hasKey k)) = [] :=
    (requiredFilter_eq_nil purchase).mpr hkeys
  simp [save_purchase, hres, hfilter, hq, hins, hrb, DB.lastRow_insertRow]

/-!
## Claims
-/

/-- C1: for any call to `save_purchase` or `get_purchases` whose
trimmed, lower-cased `store_id` is not a key of the store-table map
and where the map has no `"default"` entry, the operation fails with
the 400-status `PurchaseServiceError` (the spec's ConfigurationError),
no database session is opened and the database is untouched. -/
theorem C1_unknown_store_fails_400_no_db_io
    (map : List (String × String)) (store_id : String) (purchase : Payload)
    (db : DB) (st : Storage) (limit offset : Int)
    (hkey : List.lookup (pyLower (pyStrip store_id)) map = none)
    (hdef : List.lookup "default" map = none) :
    save_purchase map store_id purchase db st =
      (.error (.service ⟨"No hay tabla configurada para el store_id dado", 400⟩),
        ⟨false, false, db⟩)
    ∧ get_purchases map store_id limit offset db =
      (.error (.service ⟨"No hay tabla configurada para el store_id dado", 400⟩),
        false) := by
  have hres : resolve_table_name map store_id =
      .error ⟨"No hay tabla configurada para el store_id dado", 400⟩ := by
    simp [resolve_table_name, hkey, hdef, pyOrStr]
  exact ⟨by simp [save_purchase, hres], by simp [get_purchases, hres]⟩

/-- Witness for C1: the shipped map, `store_id = "unknown"`. -/
theorem C1_unknown_store_fails_400_no_db_io_witness :
    (List.lookup (pyLower (pyStrip "unknown")) STORE_TABLE_MAP = none
      ∧ List.lookup "default" STORE_TABLE_MAP = none)
    ∧ save_purchase STORE_TABLE_MAP "unknown" [] [] {} =
        (.error
            (.service ⟨"No hay tabla configurada para el store_id dado", 400⟩),
          ⟨false, false, []⟩)
    ∧ get_purchases STORE_TABLE_MAP "unknown" 50 0 [] =
        (.error
            (.service ⟨"No hay tabla configurada para el store_id dado", 400⟩),
          false) :=
  ⟨⟨by decide, by decide⟩,
    (C1_unknown_store_fails_400_no_db_io STORE_TABLE_MAP "unknown" [] [] {}
        50 0 (by decide) (by decide)).1,
    (C1_unknown_store_fails_400_no_db_io STORE_TABLE_MAP "unknown" [] [] {}
        50 0 (by decide) (by decide)).2⟩

/-- A successful `List.lookup` result is a member of the list. -/
theorem lookup_mem_pair {α β : Type} [BEq α] [LawfulBEq α] :
    ∀ (l : List (α × β)) (a : α) (b : β),
      List.lookup a l = some b → (a, b) ∈ l
  | [], _, _, h => by simp [List.lookup] at h
  | (k, v) :: rest, a, b, h => by
    by_cases hk : (a == k) = true
    · have ha : a = k := eq_of_beq hk
      simp only [List.lookup, hk] at h
      cases h
      subst ha
      exact List.mem_cons_self _ _
    · have hk2 : (a == k) = false := by simpa using hk
      simp only [List.lookup, hk2] at h
      exact List.mem_cons_of_mem _ (lookup_mem_pair rest a b h)

/-- C9: `resolve_table_name` looks the normalized `store_id` up first
and only falls back to the `"default"` entry on a miss; with a
`"default"` entry every unknown `store_id` resolves to it, and only
when both lookups miss does the call raise with status 400.  (The
hypothesis that the configured table names are non-empty rules out the
degenerate falsy value `""`; the shipped map satisfies it.)  In the
shipped map there is no `"default"` entry and `"4f22df54942898f1"`
resolves to `"ventas_mauricio"`. -/
theorem C9_resolve_default_fallback
    (map : List (String × String)) (store_id : String)
    (hv : ∀ p ∈ map, p.2 ≠ "") :
    (∀ t, List.lookup (pyLower (pyStrip store_id)) map = some t →
      resolve_table_name map store_id = .ok t)
    ∧ (List.lookup (pyLower (pyStrip store_id)) map = none →
      ∀ t, List.lookup "default" map = some t →
        resolve_table_name map store_id = .ok t)
    ∧ ((∃ e, resolve_table_name map store_id = .error e) ↔
      (List.lookup (pyLower (pyStrip store_id)) map = none
        ∧ List.lookup "default" map = none))
    ∧ (List.lookup (pyLower (pyStrip store_id)) map = none →
      List.lookup "default" map = none →
      resolve_table_name map store_id =
        .error ⟨"No hay tabla configurada para el store_id dado", 400⟩)
    ∧ resolve_table_name STORE_TABLE_MAP "4f22df54942898f1" =
        .ok "ventas_mauricio"
    ∧ List.lookup "default" STORE_TABLE_MAP = none := by
  have hne : ∀ t, List.lookup (pyLower (pyStrip store_id)) map = some t →
      t ≠ "" := fun t ht => hv _ (lookup_mem_pair _ _ _ ht)
  have hned : ∀ t, List.lookup "default" map = some t → t ≠ "" :=
    fun t ht => hv _ (lookup_mem_pair _ _ _ ht)
  refine ⟨?_, ?_, ?_, ?_, by rfl, by decide⟩
  · intro t ht
    simp [resolve_table_name, pyOrStr, ht, hne t ht]
  · intro hk t ht
    simp [resolve_table_name, pyOrStr, hk, ht, hned t ht]
  · constructor
    · rintro ⟨e, he⟩
      rcases hk : List.lookup (pyLower (pyStrip store_id)) map with _ | t
      · rcases hd : List.lookup "default" map with _ | t
        · exact ⟨rfl, rfl⟩
        · rw [resolve_table_name] at he
          simp [pyOrStr, hk, hd, hned t hd] at he
      · rw [resolve_table_name] at he
        simp [pyOrStr, hk, hne t hk] at he
    · rintro ⟨hk, hd⟩
      exact ⟨⟨"No hay tabla configurada para el store_id dado", 400⟩,
        by simp [resolve_table_name, pyOrStr, hk, hd]⟩
  · intro hk hd
    simp [resolve_table_name, pyOrStr, hk, hd]

/-- Witness for C9: a map with a `"default"` entry sends the unknown
store `"zz"` to the default table. -/
theorem C9_resolve_default_fallback_witness :
    (∀ p ∈ [("a", "tabla_a"), ("default", "tabla_def")], p.2 ≠ "")
    ∧ List.lookup (pyLower (pyStrip "zz"))
        [("a", "tabla_a"), ("default", "tabla_def")] = none
    ∧ resolve_table_name [("a", "tabla_a"), ("default", "tabla_def")] "zz" =
        .ok "tabla_def" :=
  ⟨by decide, by decide,
    (C9_resolve_default_fallback [("a", "tabla_a"), ("default", "tabla_def")]
        "zz" (by decide)).2.1 (by decide) "tabla_def" (by decide)⟩

/-- C4: when the read-back SELECT after a committed insert returns no
row, `save_purchase` fails with the 500-status `PurchaseServiceError`
(the spec's PersistenceError) rather than reporting success; the
session is rolled back (after commit) and closed. -/
theorem C4_readback_empty_fails_500
    (map : List (String × String)) (store_id : String) (purchase : Payload)
    (db : DB) (st : Storage) (t : String) (q : ℚ)
    (hres : resolve_table_name map store_id = .ok t)
    (hkeys : ∀ k ∈ requiredFields, purchase.hasKey k = true)
    (hq : pyFloat (purchase.get "total_amount") = .ok q)
    (hins : st.insertExn = none) (hrb : st.readbackEmpty = true) :
    (save_purchase map store_id purchase db st).1 =
      .error (.service ⟨"No fue posible leer la compra recién guardada", 500⟩) := by
  have hfilter : (requiredFields.filter (fun k => !purchase.hasKey k)) = [] :=
    (requiredFilter_eq_nil purchase).mpr hkeys
  simp [save_purchase, hres, hfilter, hq, hins, hrb]

/-- Witness for C4: a complete payload against the shipped map, with
the read-back returning no row. -/
theorem C4_readback_empty_fails_500_witness :
    (resolve_table_name STORE_TABLE_MAP "4f22df54942898f1" =
        .ok "ventas_mauricio"
      ∧ (∀ k ∈ requiredFields,
          Payload.hasKey
            [("total_amount", .num 100), ("client_phone", .str "3204259649"),
             ("client_full_name", .str "Juan Perez"),
             ("client_document", .str "12345"),
             ("client_address", .str "Calle 123"),
             ("client_city", .str "Bogota"),
             ("client_email", .null), ("products", .arr [])] k = true)
      ∧ pyFloat
          (Payload.get
            [("total_amount", .num 100), ("client_phone", .str "3204259649"),
             ("client_full_name", .str "Juan Perez"),
             ("client_document", .str "12345"),
             ("client_address", .str "Calle 123"),
             ("client_city", .str "Bogota"),
             ("client_email", .null), ("products", .arr [])] "total_amount") =
          .ok 100)
    ∧ (save_purchase STORE_TABLE_MAP "4f22df54942898f1"
          [("total_amount", .num 100), ("client_phone", .str "3204259649"),
           ("client_full_name", .str "Juan Perez"),
           ("client_document", .str "12345"),
           ("client_address", .str "Calle 123"),
           ("client_city", .str "Bogota"),
           ("client_email", .null), ("products", .arr [])] []
          { readbackEmpty := true }).1 =
        .error (.service ⟨"No fue posible leer la compra recién guardada", 500⟩) :=
  ⟨⟨by rfl, by simp [requiredFields, Payload.hasKey], by rfl⟩,
    C4_readback_empty_fails_500 STORE_TABLE_MAP "4f22df54942898f1" _ []
      { readbackEmpty := true } "ventas_mauricio" 100 (by rfl)
      (by simp [requiredFields, Payload.hasKey]) (by rfl) (by rfl) (by rfl)⟩

/-- C8: `save_purchase` treats `client_email` as a required key: a
payload without the key is rejected with status 422 before any
database I/O, while a payload carrying the key with value `None`
is accepted and the stored `client_json` has a null `correo` field. -/
theorem C8_client_email_required_key :
    (∀ (map : List (String × String)) (store_id : String) (purchase : Payload)
        (db : DB) (st : Storage) (t : String),
      resolve_table_name map store_id = .ok t →
      purchase.hasKey "client_email" = false →
      ∃ msg, save_purchase map store_id purchase db st =
        (.error (.service ⟨msg, 422⟩), ⟨false, false, db⟩))
    ∧ (∀ (map : List (String × String)) (store_id : String)
        (purchase : Payload) (db : DB) (st : Storage) (t : String) (q : ℚ),
      resolve_table_name map store_id = .ok t →
      (∀ k ∈ requiredFields, purchase.hasKey k = true) →
      List.lookup "client_email" purchase = some .null →
      pyFloat (purchase.get "total_amount") = .ok q →
      st.insertExn = none → st.readbackEmpty = false →
      ∃ saved tr, save_purchase map store_id purchase db st = (.ok saved, tr)
        ∧ saved.client_json.getD "correo" (.bool true) = .null) := by
  constructor
  · intro map sid purchase db st t hres hmiss
    have hne : (requiredFields.filter (fun k => !purchase.hasKey k)) ≠ [] := by
      intro hnil
      have hk := (requiredFilter_eq_nil purchase).mp hnil "client_email"
        (by simp [requiredFields])
      rw [hmiss] at hk
      exact Bool.false_ne_true hk
    obtain ⟨x, xs, hf⟩ := List.exists_cons_of_ne_nil hne
    exact ⟨"Faltan campos requeridos: " ++ String.intercalate ", " (x :: xs),
      by simp [save_purchase, hres, hf]⟩
  · intro map sid purchase db st t q hres hkeys hemail hq hins hrb
    refine ⟨_, _, save_purchase_ok map sid purchase db st t q hres hkeys hq
      hins hrb, ?_⟩
    have hget : purchase.get "client_email" = .null := by
      simp [Payload.get, hemail]
    simp [Row.toPersisted, buildClientJson, Json.getD, hget, Json.truthy,
      List.lookup]

/-- Witness for C8: concrete payloads against the shipped map, one
without the `client_email` key, one carrying it with value `None`. -/
theorem C8_client_email_required_key_witness :
    (Payload.hasKey
        [("total_amount", .num 100), ("client_phone", .str "3204259649"),
         ("client_full_name", .str "Juan Perez"),
         ("client_document", .str "12345"),
         ("client_address", .str "Calle 123"), ("client_city", .str "Bogota"),
         ("products", .arr [])] "client_email" = false)
    ∧ (∃ msg,
        save_purchase STORE_TABLE_MAP "4f22df54942898f1"
          [("total_amount", .num 100), ("client_phone", .str "3204259649"),
           ("client_full_name", .str "Juan Perez"),
           ("client_document", .str "12345"),
           ("client_address", .str "Calle 123"),
           ("client_city", .str "Bogota"), ("products", .arr [])] [] {} =
          (.error (.service ⟨msg, 422⟩), ⟨false, false, []⟩))
    ∧ (∃ saved tr,
        save_purchase STORE_TABLE_MAP "4f22df54942898f1"
          [("total_amount", .num 100), ("client_phone", .str "3204259649"),
           ("client_full_name", .str "Juan Perez"),
           ("client_document", .str "12345"),
           ("client_address", .str "Calle 123"),
           ("client_city", .str "Bogota"), ("client_email", .null),
           ("products", .arr [])] [] {} = (.ok saved, tr)
          ∧ saved.client_json.getD "correo" (.bool true) = .null) :=
  ⟨by decide,
    C8_client_email_required_key.1 STORE_TABLE_MAP "4f22df54942898f1" _ [] {}
      "ventas_mauricio" (by rfl) (by decide),
    C8_client_email_required_key.2 STORE_TABLE_MAP "4f22df54942898f1" _ [] {}
      "ventas_mauricio" 100 (by rfl)
      (by simp [requiredFields, Payload.hasKey]) (by rfl) (by rfl) (by rfl)
      (by rfl)⟩

/-- C2 counterexample: `save_purchase` performs no 2-decimal precision
check.  A payload with `total_amount = 100.005` is accepted (the
claim says it must be rejected with a ValidationError) and the
persisted row carries `100.005` unchanged. -/
theorem C2_overprecise_amount_accepted_counterexample :
    ((save_purchase STORE_TABLE_MAP "4f22df54942898f1"
        [("total_amount", .num (100.005 : ℚ)),
         ("client_phone", .str "3204259649"),
         ("client_full_name", .str "Juan Perez"),
         ("client_document", .str "12345"),
         ("client_address", .str "Calle 123"), ("client_city", .str "Bogota"),
         ("client_email", .null),
         ("products",
           .arr [Json.obj
             [("product_id", .str "p1"), ("quantity", .num 1),
              ("unit_price", .num (100.005 : ℚ))]])]
        [] {}).1.toOption.map PersistedPurchase.total_amount) =
      some (100.005 : ℚ) := by
  rfl

/-- C2 amended: `save_purchase` applies no quantization or precision
validation to `total_amount`: any numeric value — `100.005` as much
as `100.00` — is persisted as given, and the read-back row returns it
exactly. -/
theorem C2_amended_amount_persisted_unquantized
    (map : List (String × String)) (store_id : String) (purchase : Payload)
    (db : DB) (st : Storage) (t : String) (q : ℚ)
    (hres : resolve_table_name map store_id = .ok t)
    (hkeys : ∀ k ∈ requiredFields, purchase.hasKey k = true)
    (hq : purchase.get "total_amount" = .num q)
    (hins : st.insertExn = none) (hrb : st.readbackEmpty = false) :
    ∃ saved tr, save_purchase map store_id purchase db st = (.ok saved, tr)
      ∧ saved.total_amount = q :=
  ⟨_, _, save_purchase_ok map store_id purchase db st t q hres hkeys
      (by rw [hq]; rfl) hins hrb, rfl⟩

/-- Witness for the amended C2: `total_amount = 100.00` succeeds and
reads back exactly as `100`. -/
theorem C2_amended_amount_persisted_unquantized_witness :
    (Payload.get
        [("total_amount", .num (100.00 : ℚ)),
         ("client_phone", .str "3204259649"),
         ("client_full_name", .str "Juan Perez"),
         ("client_document", .str "12345"),
         ("client_address", .str "Calle 123"), ("client_city", .str "Bogota"),
         ("client_email", .null), ("products", .arr [])] "total_amount" =
      .num (100.00 : ℚ))
    ∧ (∃ saved tr,
        save_purchase STORE_TABLE_MAP "4f22df54942898f1"
          [("total_amount", .num (100.00 : ℚ)),
           ("client_phone", .str "3204259649"),
           ("client_full_name", .str "Juan Perez"),
           ("client_document", .str "12345"),
           ("client_address", .str "Calle 123"),
           ("client_city", .str "Bogota"),
           ("client_email", .null), ("products", .arr [])] [] {} =
          (.ok saved, tr) ∧ saved.total_amount = (100.00 : ℚ)) :=
  ⟨by rfl,
    C2_amended_amount_persisted_unquantized STORE_TABLE_MAP "4f22df54942898f1"
      _ [] {} "ventas_mauricio" (100.00 : ℚ) (by rfl)
      (by simp [requiredFields, Payload.hasKey]) (by rfl) (by rfl) (by rfl)⟩

/-- C3 counterexample: when the INSERT raises, the failure does NOT
surface as a 500-status `PurchaseServiceError` with a scrubbed
message; the raw storage exception propagates unchanged — the tool
answers with the generic handler (`.exception`, no status code) and
the message retains the resolved table name `ventas_mauricio` that the
storage layer put in it. -/
theorem C3_insert_failure_not_wrapped_counterexample :
    save_purchase STORE_TABLE_MAP "4f22df54942898f1"
        [("total_amount", .num 100), ("client_phone", .str "3204259649"),
         ("client_full_name", .str "Juan Perez"),
         ("client_document", .str "12345"),
         ("client_address", .str "Calle 123"), ("client_city", .str "Bogota"),
         ("client_email", .null), ("products", .arr [])]
        []
        { insertExn :=
            some ("relation " ++ "ventas_mauricio" ++ " does not exist") } =
      (.error (.raised ("relation " ++ "ventas_mauricio" ++ " does not exist")),
        ⟨true, true, []⟩)
    ∧ toolWrapSave
        (save_purchase STORE_TABLE_MAP "4f22df54942898f1"
          [("total_amount", .num 100), ("client_phone", .str "3204259649"),
           ("client_full_name", .str "Juan Perez"),
           ("client_document", .str "12345"),
           ("client_address", .str "Calle 123"),
           ("client_city", .str "Bogota"),
           ("client_email", .null), ("products", .arr [])]
          []
          { insertExn :=
              some ("relation " ++ "ventas_mauricio" ++ " does not exist") }) =
      (.err (.exception
          ("relation " ++ "ventas_mauricio" ++ " does not exist")),
        ⟨true, true, []⟩) :=
  ⟨rfl, rfl⟩

/-- C3 amended: on a storage exception during the INSERT the session
is rolled back (the committed database is unchanged), and the
exception propagates unchanged: the service re-raises it as-is, and
the tool layer catches it in the generic handler, answering
success = False with the raw exception message and no status code —
nothing wraps it in a 500-status error or scrubs table names. -/
theorem C3_amended_rollback_and_raw_exception
    (map : List (String × String)) (store_id : String) (purchase : Payload)
    (db : DB) (st : Storage) (t : String) (q : ℚ) (m : String)
    (hres : resolve_table_name map store_id = .ok t)
    (hkeys : ∀ k ∈ requiredFields, purchase.hasKey k = true)
    (hq : pyFloat (purchase.get "total_amount") = .ok q)
    (hins : st.insertExn = some m) :
    save_purchase map store_id purchase db st =
      (.error (.raised m), ⟨true, true, db⟩)
    ∧ toolWrapSave (save_purchase map store_id purchase db st) =
      (.err (.exception m), ⟨true, true, db⟩) := by
  have hfilter : (requiredFields.filter (fun k => !purchase.hasKey k)) = [] :=
    (requiredFilter_eq_nil purchase).mpr hkeys
  have h1 : save_purchase map store_id purchase db st =
      (.error (.raised m), ⟨true, true, db⟩) := by
    simp [save_purchase, hres, hfilter, hq, hins]
  exact ⟨h1, by rw [h1]; rfl⟩

/-- Witness for the amended C3: a concrete insert failure. -/
theorem C3_amended_rollback_and_raw_exception_witness :
    (pyFloat
        (Payload.get
          [("total_amount", .num 100), ("client_phone", .str "3204259649"),
           ("client_full_name", .str "Juan Perez"),
           ("client_document", .str "12345"),
           ("client_address", .str "Calle 123"),
           ("client_city", .str "Bogota"),
           ("client_email", .null), ("products", .arr [])] "total_amount") =
      .ok 100)
    ∧ save_purchase STORE_TABLE_MAP "4f22df54942898f1"
        [("total_amount", .num 100), ("client_phone", .str "3204259649"),
         ("client_full_name", .str "Juan Perez"),
         ("client_document", .str "12345"),
         ("client_address", .str "Calle 123"), ("client_city", .str "Bogota"),
         ("client_email", .null), ("products", .arr [])]
        [] { insertExn := some "deadlock detected" } =
      (.error (.raised "deadlock detected"), ⟨true, true, []⟩) :=
  ⟨by rfl,
    (C3_amended_rollback_and_raw_exception STORE_TABLE_MAP "4f22df54942898f1"
        _ [] { insertExn := some "deadlock detected" } "ventas_mauricio" 100
        "deadlock detected" (by rfl)
        (by simp [requiredFields, Payload.hasKey]) (by rfl) (by rfl)).1⟩

/-- C7: `get_purchases` clamps `limit` into [1, 200] and `offset`
into [0, ∞) before the SELECT (the returned slice is drop/take of the
id-descending rows by the clamped values), the tool defaults are
`limit = 50`, `offset = 0`, and an empty table yields an empty list,
not an error. -/
theorem C7_get_purchases_clamps_and_empty_ok
    (map : List (String × String)) (store_id : String) (limit offset : Int)
    (db : DB) (t : String)
    (hres : resolve_table_name map store_id = .ok t) :
    get_purchases map store_id limit offset db =
      (.ok ((((db.rowsOf t).reverse.drop (max 0 offset).toNat).take
          (max 1 (min limit 200)).toNat).map (fun r => r.toPersisted t)),
        true)
    ∧ (db.rowsOf t = [] →
      get_purchases map store_id limit offset db = (.ok [], true))
    ∧ (∀ (sid : String) (db2 : DB),
      get_store_purchases sid db2 = get_store_purchases sid db2 50 0) := by
  refine ⟨by simp [get_purchases, hres], ?_, fun _ _ => rfl⟩
  intro hempty
  simp [get_purchases, hres, hempty]

/-- Witness for C7: the shipped store, out-of-range `limit = 1000` and
negative `offset`, on a single-row table and on an empty table. -/
theorem C7_get_purchases_clamps_and_empty_ok_witness :
    (resolve_table_name STORE_TABLE_MAP "4f22df54942898f1" =
      .ok "ventas_mauricio")
    ∧ get_purchases STORE_TABLE_MAP "4f22df54942898f1" 1000 (-7) [] =
        (.ok [], true) :=
  ⟨by rfl,
    (C7_get_purchases_clamps_and_empty_ok STORE_TABLE_MAP "4f22df54942898f1"
        1000 (-7) [] "ventas_mauricio" (by rfl)).2.1 (by rfl)⟩

/-- C6: `register_product_sale` accepts `products` as a list or as a
JSON-encoded string of the same list and normalizes the two forms
identically: whenever `json.loads` decodes the string to the list `L`
(which Python guarantees for `json.dumps(L)`), the call with the
string and the call with `L` — all other arguments equal — return the
same result, including the same validation outcome and the same
persisted purchase from the identical payload given to
`save_purchase`. -/
theorem C6_products_string_list_equivalent
    (loads : String → Option Json)
    (store_id client_phone client_full_name client_document client_address
      client_city : String) (client_email : Option String)
    (s : String) (L : List Json) (db : DB) (st : Storage)
    (h : loads s = some (.arr L)) :
    register_product_sale loads store_id client_phone client_full_name
        client_document client_address client_city client_email
        (.pyStr s) db st =
      register_product_sale loads store_id client_phone client_full_name
        client_document client_address client_city client_email
        (.pyList L) db st := by
  simp [register_product_sale, h]

/-- Witness for C6: a decode function sending `"[{...}]"` to a
one-item list; both call forms agree. -/
theorem C6_products_string_list_equivalent_witness :
    ((fun u => if u = "enc" then
        some (Json.arr [Json.obj
          [("product_id", Json.str "p1"), ("quantity", Json.num 2),
           ("unit_price", Json.num 50)]])
      else none) "enc" =
      some (Json.arr [Json.obj
        [("product_id", Json.str "p1"), ("quantity", Json.num 2),
         ("unit_price", Json.num 50)]]))
    ∧ register_product_sale
        (fun u => if u = "enc" then
          some (Json.arr [Json.obj
            [("product_id", Json.str "p1"), ("quantity", Json.num 2),
             ("unit_price", Json.num 50)]])
        else none)
        "4f22df54942898f1" "3204259649" "Juan Perez" "12345" "Calle 123"
        "Bogota" none (.pyStr "enc") [] {} =
      register_product_sale
        (fun u => if u = "enc" then
          some (Json.arr [Json.obj
            [("product_id", Json.str "p1"), ("quantity", Json.num 2),
             ("unit_price", Json.num 50)]])
        else none)
        "4f22df54942898f1" "3204259649" "Juan Perez" "12345" "Calle 123"
        "Bogota" none
        (.pyList [Json.obj
          [("product_id", Json.str "p1"), ("quantity", Json.num 2),
           ("unit_price", Json.num 50)]]) [] {} :=
  ⟨by rfl,
    C6_products_string_list_equivalent _ "4f22df54942898f1" "3204259649"
      "Juan Perez" "12345" "Calle 123" "Bogota" none "enc" _ [] {} (by rfl)⟩

/-- Unfolding of the per-item pass predicate. -/
theorem itemOk_eq_true_iff (item : Json) :
    itemOk item = true ↔
      itemPid item ≠ ""
        ∧ (∃ q, itemQty item = .ok q ∧ 0 < q)
        ∧ ∃ p, itemPrice item = some p ∧ 0 ≤ p := by
  unfold itemOk
  cases hq : itemQty item <;> cases hp : itemPrice item <;>
    simp [hq, hp, and_assoc]

/-- When every item passes, the loop validates all of them and the
running total is the sum of `unit_price * quantity`. -/
theorem validateItems_all_ok :
    ∀ (items : List Json) (k : ℕ), (∀ it ∈ items, itemOk it = true) →
      validateItems items k =
        .ok (items.map mkReqItem)
          ((items.map
            (fun it => ((itemPrice it).getD 0) * ((itemQtyD it : Int) : ℚ))).sum)
  | [], _, _ => by simp [validateItems]
  | item :: rest, k, h => by
    obtain ⟨hpid, ⟨q, hq, hqpos⟩, ⟨p, hp, hppos⟩⟩ :=
      (itemOk_eq_true_iff item).mp (h item (.head _))
    have hrest := validateItems_all_ok rest (k + 1)
      (fun it hit => h it (.tail _ hit))
    have hcondn : ¬(itemPid item = "" ∨ q ≤ 0 ∨ (itemPrice item).isNone = true
        ∨ (itemPrice item).getD 0 < 0) := by
      push_neg
      exact ⟨hpid, hqpos, by simp [hp], by simpa [hp] using hppos⟩
    rw [validateItems]
    simp only [hq]
    rw [if_neg hcondn, hrest]
    simp [mkReqItem, itemQtyD, hq, hp]

/-- When every item before index `|pre|` passes and the item there
fails the checks (its quantity coercion succeeding), the loop rejects
the batch at exactly that index, reporting the item's coerced fields. -/
theorem validateItems_first_bad :
    ∀ (pre : List Json) (item : Json) (rest : List Json) (k : ℕ),
      (∀ it ∈ pre, itemOk it = true) → itemOk item = false →
      (∃ q, itemQty item = .ok q) →
      validateItems (pre ++ item :: rest) k =
        .bad (k + pre.length) (itemPid item) (itemQtyD item) (itemPrice item)
  | [], item, rest, k, _, hbad, ⟨q, hq⟩ => by
    have hcond : itemPid item = "" ∨ q ≤ 0 ∨ (itemPrice item).isNone = true
        ∨ (itemPrice item).getD 0 < 0 := by
      by_contra hc
      push_neg at hc
      obtain ⟨h1, h2, h3, h4⟩ := hc
      have hsome : itemPrice item = some ((itemPrice item).getD 0) := by
        cases hp : itemPrice item with
        | none => simp [hp] at h3
        | some pr => simp [hp]
      have hok : itemOk item = true :=
        (itemOk_eq_true_iff item).mpr
          ⟨h1, ⟨q, hq, h2⟩, ⟨(itemPrice item).getD 0, hsome, h4⟩⟩
      rw [hok] at hbad
      exact Bool.noConfusion hbad
    rw [List.nil_append, validateItems]
    simp only [hq]
    rw [if_pos hcond]
    simp [itemQtyD, hq]
  | p :: pre, item, rest, k, hpre, hbad, hqok => by
    obtain ⟨hpid, ⟨q, hq, hqpos⟩, ⟨pr, hp, hppos⟩⟩ :=
      (itemOk_eq_true_iff p).mp (hpre p (.head _))
    have htail := validateItems_first_bad pre item rest (k + 1)
      (fun it hit => hpre it (.tail _ hit)) hbad hqok
    have hcondn : ¬(itemPid p = "" ∨ q ≤ 0 ∨ (itemPrice p).isNone = true
        ∨ (itemPrice p).getD 0 < 0) := by
      push_neg
      exact ⟨hpid, hqpos, by simp [hp], by simpa [hp] using hppos⟩
    rw [List.cons_append, validateItems]
    simp only [hq]
    rw [if_neg hcondn, htail]
    have hidx : k + 1 + pre.length = k + (p :: pre).length := by
      simp [List.length_cons]
      omega
    rw [hidx]

/-- Any call whose trimmed client fields are too short is rejected in
the pre-persistence checks of `rps_withList`, whatever the products
argument decoded to. -/
theorem rps_withList_short_client_rejected
    (store_id client_phone client_full_name client_document client_address
      client_city : String) (client_email : Option String) (j : Json)
    (db : DB) (st : Storage)
    (h : (pyStrip client_phone).length < 10
      ∨ (pyStrip client_address).length < 5
      ∨ (pyStrip client_full_name).length < 3
      ∨ (pyStrip client_document).length < 5
      ∨ (pyStrip client_city).length < 2) :
    ∃ e, rps_withList store_id client_phone client_full_name client_document
        client_address client_city client_email j db st =
      (.err e, ⟨false, false, db⟩) := by
  cases j with
  | arr items =>
    simp only [rps_withList]
    split_ifs with he h1 h2 h3 h4 h5
    · exact ⟨_, rfl⟩
    · exact ⟨_, rfl⟩
    · exact ⟨_, rfl⟩
    · exact ⟨_, rfl⟩
    · exact ⟨_, rfl⟩
    · exact ⟨_, rfl⟩
    · exfalso
      push_neg at h1 h2 h3 h4 h5
      rcases h with hh | hh | hh | hh | hh <;> omega
  | null => exact ⟨_, rfl⟩
  | bool b => exact ⟨_, rfl⟩
  | num q => exact ⟨_, rfl⟩
  | str s => exact ⟨_, rfl⟩
  | obj kvs => exact ⟨_, rfl⟩

/-- C10: whenever the stripped `client_phone` has fewer than 10
characters, or `client_address` fewer than 5, or `client_full_name`
fewer than 3, or `client_document` fewer than 5, or `client_city`
fewer than 2, `register_product_sale` answers success = False with an
error, opening no session and leaving the database untouched. -/
theorem C10_short_client_fields_rejected_before_db
    (loads : String → Option Json)
    (store_id client_phone client_full_name client_document client_address
      client_city : String) (client_email : Option String)
    (products : ProductsArg) (db : DB) (st : Storage)
    (h : (pyStrip client_phone).length < 10
      ∨ (pyStrip client_address).length < 5
      ∨ (pyStrip client_full_name).length < 3
      ∨ (pyStrip client_document).length < 5
      ∨ (pyStrip client_city).length < 2) :
    ∃ e, register_product_sale loads store_id client_phone client_full_name
        client_document client_address client_city client_email products db
        st = (.err e, ⟨false, false, db⟩) := by
  cases products with
  | pyList xs =>
    simpa [register_product_sale] using
      rps_withList_short_client_rejected store_id client_phone
        client_full_name client_document client_address client_city
        client_email (.arr xs) db st h
  | pyStr s =>
    cases hl : loads s with
    | none => exact ⟨.productsInvalidJson, by simp [register_product_sale, hl]⟩
    | some j =>
      simpa [register_product_sale, hl] using
        rps_withList_short_client_rejected store_id client_phone
          client_full_name client_document client_address client_city
          client_email j db st h
  | other => exact ⟨.productsNotListOrString, rfl⟩

/-- Witness for C10: a 3-character phone with otherwise valid
arguments is rejected with no database access. -/
theorem C10_short_client_fields_rejected_before_db_witness :
    ((pyStrip "123").length < 10)
    ∧ ∃ e, register_product_sale (fun _ => Option.none) "4f22df54942898f1"
        "123" "Juan Perez" "12345" "Calle 123" "Bogota" none
        (.pyList [Json.obj
          [("product_id", Json.str "a"), ("quantity", Json.num 2),
           ("unit_price", Json.num 100)]]) [] {} =
      (.err e, ⟨false, false, []⟩) :=
  ⟨by decide,
    C10_short_client_fields_rejected_before_db (fun _ => Option.none)
      "4f22df54942898f1" "123" "Juan Perez" "12345" "Calle 123" "Bogota" none
      (.pyList [Json.obj
        [("product_id", Json.str "a"), ("quantity", Json.num 2),
         ("unit_price", Json.num 100)]]) [] {} (.inl (by decide))⟩

/-- C5 counterexample: the quantity check coerces with `int(...)`
rather than requiring an integer.  A batch whose only item carries the
non-integer quantity 2.9 is NOT rejected (the claim requires every
line item to have an integer quantity > 0, with the batch rejected at
the first violating item): validation passes with the quantity
truncated to 2, the sale succeeds, and the persisted `total_amount` is
`unit_price * int(2.9) = 2`. -/
theorem C5_noninteger_quantity_accepted_counterexample :
    ((register_product_sale (fun _ => Option.none) "4f22df54942898f1"
        "3204259649" "Juan Perez" "12345" "Calle 123" "Bogota" none
        (.pyList [Json.obj
          [("product_id", Json.str "a"), ("quantity", Json.num (2.9 : ℚ)),
           ("unit_price", Json.num 1)]]) [] {}).1.success = true)
    ∧ (((register_product_sale (fun _ => Option.none) "4f22df54942898f1"
        "3204259649" "Juan Perez" "12345" "Calle 123" "Bogota" none
        (.pyList [Json.obj
          [("product_id", Json.str "a"), ("quantity", Json.num (2.9 : ℚ)),
           ("unit_price", Json.num 1)]]) [] {}).2.db.rowsOf
        "ventas_mauricio").map Row.total_amount = [2]) := by
  have hg : (Json.obj
      [("product_id", Json.str "a"), ("quantity", Json.num (2.9 : ℚ)),
       ("unit_price", Json.num 1)]).getD "quantity" (Json.num 0) =
      Json.num (2.9 : ℚ) := by
    simp [Json.getD, List.lookup]
  have hnum : (2.9 : ℚ).num = 29 := by norm_num
  have hden : (((2.9 : ℚ).den : Int)) = 10 := by norm_num
  have h29 : ratTruncate (2.9 : ℚ) = 2 := by
    rw [ratTruncate, hnum, hden]
    decide
  have hqty : itemQty (Json.obj
      [("product_id", Json.str "a"), ("quantity", Json.num (2.9 : ℚ)),
       ("unit_price", Json.num 1)]) = .ok 2 := by
    rw [itemQty]
    simp only [Json.truthyDict, List.isEmpty_cons, Bool.not_false, if_true]
    rw [hg, pyInt, h29]
  have hpid : itemPid (Json.obj
      [("product_id", Json.str "a"), ("quantity", Json.num (2.9 : ℚ)),
       ("unit_price", Json.num 1)]) = "a" := by decide
  have hprice : itemPrice (Json.obj
      [("product_id", Json.str "a"), ("quantity", Json.num (2.9 : ℚ)),
       ("unit_price", Json.num 1)]) = some 1 := by decide
  have hval : validateItems [Json.obj
      [("product_id", Json.str "a"), ("quantity", Json.num (2.9 : ℚ)),
       ("unit_price", Json.num 1)]] 0 = .ok [⟨"a", 2, 1⟩] 2 := by
    simp only [validateItems, hqty, hpid, hprice]
    rw [if_neg (by decide :
      ¬("a" = "" ∨ (2 : Int) ≤ 0 ∨ (some (1 : ℚ)).isNone = true
        ∨ (some (1 : ℚ)).getD 0 < 0))]
    simp only [Option.getD_some]
    norm_num
  have hreg : register_product_sale (fun _ => Option.none) "4f22df54942898f1"
      "3204259649" "Juan Perez" "12345" "Calle 123" "Bogota" none
      (.pyList [Json.obj
        [("product_id", Json.str "a"), ("quantity", Json.num (2.9 : ℚ)),
         ("unit_price", Json.num 1)]]) [] {} =
      toolWrapSave (save_purchase STORE_TABLE_MAP "4f22df54942898f1"
        (buildPurchase "3204259649" "Juan Perez" "12345" "Calle 123" "Bogota"
          none [⟨"a", 2, 1⟩] 2) [] {}) := by
    simp only [register_product_sale, rps_withList]
    rw [if_neg (by decide : ¬(([Json.obj
      [("product_id", Json.str "a"), ("quantity", Json.num (2.9 : ℚ)),
       ("unit_price", Json.num 1)]].isEmpty) = true))]
    rw [if_neg (by decide :
      ¬("3204259649" = "" ∨ (pyStrip "3204259649").length < 10))]
    rw [if_neg (by decide :
      ¬("Calle 123" = "" ∨ (pyStrip "Calle 123").length < 5))]
    rw [if_neg (by decide :
      ¬("Juan Perez" = "" ∨ (pyStrip "Juan Perez").length < 3))]
    rw [if_neg (by decide : ¬("12345" = "" ∨ (pyStrip "12345").length < 5))]
    rw [if_neg (by decide : ¬("Bogota" = "" ∨ (pyStrip "Bogota").length < 2))]
    rw [hval]
  have hsave := save_purchase_ok STORE_TABLE_MAP "4f22df54942898f1"
    (buildPurchase "3204259649" "Juan Perez" "12345" "Calle 123" "Bogota"
      none [⟨"a", 2, 1⟩] 2) [] {} "ventas_mauricio" 2 (by rfl)
    (by decide) (by rfl) (by rfl) (by rfl)
  constructor
  · rw [hreg, hsave]
    rfl
  · rw [hreg, hsave]
    rfl

/-- C5 amended: `register_product_sale` rejects an empty `products`
list; each line item's fields are first coerced (`str(...).strip()`
for `product_id`, `int(...)` for `quantity` — truncating non-integral
numerics — and `float(...)` for `unit_price`); provided no quantity
coercion raises, the whole batch is rejected on the first item whose
coerced `product_id` is empty, coerced `quantity` is ≤ 0, or
`unit_price` is missing, uncoercible or negative, with the error
carrying that item's index; and on success the purchase handed to
`save_purchase` carries `total_amount` = the sum of
`unit_price * int(quantity)` over all items. -/
theorem C5_amended_register_item_validation
    (loads : String → Option Json)
    (store_id client_phone client_full_name client_document client_address
      client_city : String) (client_email : Option String) (db : DB)
    (st : Storage)
    (hphone : 10 ≤ (pyStrip client_phone).length)
    (haddr : 5 ≤ (pyStrip client_address).length)
    (hname : 3 ≤ (pyStrip client_full_name).length)
    (hdoc : 5 ≤ (pyStrip client_document).length)
    (hcity : 2 ≤ (pyStrip client_city).length) :
    (register_product_sale loads store_id client_phone client_full_name
        client_document client_address client_city client_email
        (.pyList []) db st =
      (.err .productsEmptyOrNotAList, ⟨false, false, db⟩))
    ∧ (∀ pre item rest, (∀ it ∈ pre, itemOk it = true) →
        itemOk item = false → (∃ q, itemQty item = .ok q) →
        register_product_sale loads store_id client_phone client_full_name
            client_document client_address client_city client_email
            (.pyList (pre ++ item :: rest)) db st =
          (.err (.itemInvalid pre.length (itemPid item) (itemQtyD item)
              (itemPrice item)),
            ⟨false, false, db⟩))
    ∧ (∀ items, items ≠ [] → (∀ it ∈ items, itemOk it = true) →
        register_product_sale loads store_id client_phone client_full_name
            client_document client_address client_city client_email
            (.pyList items) db st =
          toolWrapSave (save_purchase STORE_TABLE_MAP store_id
            (buildPurchase client_phone client_full_name client_document
              client_address client_city client_email (items.map mkReqItem)
              ((items.map (fun it =>
                ((itemPrice it).getD 0) * ((itemQtyD it : Int) : ℚ))).sum))
            db st)) := by
  have hc1 : ¬(client_phone = "" ∨ (pyStrip client_phone).length < 10) := by
    rintro (rfl | hlt)
    · exact absurd hphone (by decide)
    · omega
  have hc2 : ¬(client_address = "" ∨ (pyStrip client_address).length < 5) := by
    rintro (rfl | hlt)
    · exact absurd haddr (by decide)
    · omega
  have hc3 : ¬(client_full_name = ""
      ∨ (pyStrip client_full_name).length < 3) := by
    rintro (rfl | hlt)
    · exact absurd hname (by decide)
    · omega
  have hc4 : ¬(client_document = ""
      ∨ (pyStrip client_document).length < 5) := by
    rintro (rfl | hlt)
    · exact absurd hdoc (by decide)
    · omega
  have hc5 : ¬(client_city = "" ∨ (pyStrip client_city).length < 2) := by
    rintro (rfl | hlt)
    · exact absurd hcity (by decide)
    · omega
  refine ⟨by simp [register_product_sale, rps_withList], ?_, ?_⟩
  · intro pre item rest hpre hbad hqok
    have hv := validateItems_first_bad pre item rest 0 hpre hbad hqok
    have hne : (pre ++ item :: rest).isEmpty = false := by simp
    simp [register_product_sale, rps_withList, hne, hc1, hc2, hc3, hc4, hc5,
      hv]
  · intro items hitems hall
    have hv := validateItems_all_ok items 0 hall
    have hne : items.isEmpty = false := by simpa using hitems
    simp [register_product_sale, rps_withList, hne, hc1, hc2, hc3, hc4, hc5,
      hv]

/-- Witness for the amended C5: a two-item batch whose second item has
quantity 0 is rejected at index 1 with that item's coerced fields. -/
theorem C5_amended_register_item_validation_witness :
    ((∀ it ∈ [Json.obj
        [("product_id", Json.str "a"), ("quantity", Json.num 2),
         ("unit_price", Json.num 100)]], itemOk it = true)
      ∧ itemOk (Json.obj
          [("product_id", Json.str "b"), ("quantity", Json.num 0),
           ("unit_price", Json.num 5)]) = false
      ∧ itemQty (Json.obj
          [("product_id", Json.str "b"), ("quantity", Json.num 0),
           ("unit_price", Json.num 5)]) = .ok 0)
    ∧ register_product_sale (fun _ => Option.none) "4f22df54942898f1"
        "3204259649" "Juan Perez" "12345" "Calle 123" "Bogota" none
        (.pyList
          [Json.obj
            [("product_id", Json.str "a"), ("quantity", Json.num 2),
             ("unit_price", Json.num 100)],
           Json.obj
            [("product_id", Json.str "b"), ("quantity", Json.num 0),
             ("unit_price", Json.num 5)]]) [] {} =
      (.err (.itemInvalid 1 "b" 0 (some 5)), ⟨false, false, []⟩) := by
  refine ⟨⟨by decide, by decide, by rfl⟩, ?_⟩
  have h := (C5_amended_register_item_validation (fun _ => Option.none)
      "4f22df54942898f1" "3204259649" "Juan Perez" "12345" "Calle 123"
      "Bogota" none [] {} (by decide) (by decide) (by decide) (by decide)
      (by decide)).2.1
      [Json.obj
        [("product_id", Json.str "a"), ("quantity", Json.num 2),
         ("unit_price", Json.num 100)]]
      (Json.obj
        [("product_id", Json.str "b"), ("quantity", Json.num 0),
         ("unit_price", Json.num 5)])
      [] (by decide) (by decide) ⟨0, rfl⟩
  simpa using h
